import Mathlib

/-!
Verification of the script-execution gateway in src/website/server.py.

The server has two handlers:
* index: GET / serves static/index.html via Flask send_from_directory;
* run_script: POST /run reads the key script from the JSON body, checks it
  against the one-entry allow-list erlaubte_skripte, and on success runs
  the subprocess python3 with the script name, returning its captured
  stdout (exit 0, HTTP 200) or stderr (non-zero exit, HTTP 400).

The embedding is shallow: JSON values are an inductive type, the operating
system is a function from the spawned command to an execution result, and
a handler run is a pure function returning the HTTP response together with
the list of commands it spawned.
-/

namespace Website

/-- JSON values as parsed from the request body. A JSON null parses to the
Python value None, which is also what dict.get returns for a missing key,
so JVal.null plays both roles. -/
inductive JVal where
  | null : JVal
  | bool : Bool → JVal
  | num : Int → JVal
  | str : String → JVal
  | arr : List JVal → JVal
  | obj : List (String × JVal) → JVal

/-- Python equality between a decoded JSON value and a Python str: only a
str compares equal to a str, every other type compares unequal. -/
def pyEqStr : JVal → String → Bool
  | JVal.str t, s => t == s
  | _, _ => false

/-- Python membership test v in l for a list of str literals: true iff some
element compares equal to v under Python equality. -/
def pyInList (v : JVal) (l : List String) : Bool :=
  l.any (pyEqStr v)

/-- request.json.get applied to a parsed JSON object: the value stored
under the key, or None (JVal.null) when the key is absent. -/
def getScript (body : List (String × JVal)) : JVal :=
  (body.lookup "script").getD JVal.null

/-- Result of subprocess.run with capture_output=True and text=True:
exit code plus the captured stdout and stderr as text. -/
structure ExecResult where
  exitCode : Nat
  stdout : String
  stderr : String
deriving DecidableEq, Repr

/-- An HTTP response: status code and JSON body. -/
structure Resp where
  status : Nat
  body : JVal

/-- One run of a handler: the response it returns and the list of
subprocess commands it spawned, in order. -/
structure HandlerTrace where
  response : Resp
  spawned : List (List String)

/-- The hardcoded allow-list from run_script. -/
def erlaubte_skripte : List String := ["dein_script.py"]

/-- The fixed 403 body jsonify(error: Script nicht erlaubt). -/
def notAllowedBody : JVal :=
  JVal.obj [("error", JVal.str "Script nicht erlaubt")]

/-- The run_script handler from src/website/server.py, as a function of
the operating system (mapping a spawned command to its execution result)
and the parsed JSON request body. subprocess.run is called with
check=True, so a non-zero exit raises CalledProcessError and the except
branch returns the captured stderr with status 400. The wildcard match
branch is unreachable: pyInList only succeeds on a str value. -/
def run_script (os : List String → ExecResult)
    (body : List (String × JVal)) : HandlerTrace :=
  let script := getScript body
  if pyInList script erlaubte_skripte then
    match script with
    | JVal.str s =>
      let result := os ["python3", s]
      if result.exitCode = 0 then
        { response := { status := 200
                        body := JVal.obj [("output", JVal.str result.stdout)] }
          spawned := [["python3", s]] }
      else
        { response := { status := 400
                        body := JVal.obj [("error", JVal.str result.stderr)] }
          spawned := [["python3", s]] }
    | _ =>
      { response := { status := 403, body := notAllowedBody }, spawned := [] }
  else
    { response := { status := 403, body := notAllowedBody }, spawned := [] }

/-- The keys of a JSON object, in order; other values have no keys. -/
def objKeys : JVal → List String
  | JVal.obj fields => fields.map Prod.fst
  | _ => []

/-- An operating system in which every command succeeds with empty output,
used to instantiate universally quantified theorems at a concrete point. -/
def osDefault : List String → ExecResult :=
  fun _ => { exitCode := 0, stdout := "", stderr := "" }

/-- An operating system whose processes print hello and succeed, with
noise on stderr that a correct handler must discard. -/
def osHello : List String → ExecResult :=
  fun _ => { exitCode := 0, stdout := "hello", stderr := "junk" }

/-- Like osHello but with different stderr text, to witness that stderr
does not influence the success response. -/
def osHello2 : List String → ExecResult :=
  fun _ => { exitCode := 0, stdout := "hello", stderr := "other junk" }

/-- An operating system whose processes fail with boom on stderr. -/
def osBoom : List String → ExecResult :=
  fun _ => { exitCode := 1, stdout := "noise", stderr := "boom" }

/-- Like osBoom but with different stdout text, to witness that stdout
does not influence the failure response. -/
def osBoom2 : List String → ExecResult :=
  fun _ => { exitCode := 1, stdout := "other noise", stderr := "boom" }

/-- The message carried by a one-key error object, used to compare error
bodies; any other shape maps to the empty string. -/
def errMsg : JVal → String
  | JVal.obj [("error", JVal.str m)] => m
  | _ => ""

/-- A static-file response: status code and raw byte content. -/
structure FileResponse where
  status : Nat
  content : List Nat
deriving DecidableEq, Repr

/-- Modelled from the spec: Flask send_from_directory, which the index
handler delegates to and which is not part of this repository. Per the
spec it returns the byte content of the named file under the directory
with HTTP 200, and fails with NotFound (HTTP 404) when the file is
absent. The file system is a map from paths to optional byte content. -/
def send_from_directory (fs : String → Option (List Nat))
    (dir fname : String) : FileResponse :=
  match fs (dir ++ "/" ++ fname) with
  | some bs => { status := 200, content := bs }
  | none => { status := 404, content := [] }

/-- The index handler from src/website/server.py: GET / returns
send_from_directory applied to the static folder and index.html. -/
def index (fs : String → Option (List Nat)) : FileResponse :=
  send_from_directory fs "static" "index.html"

/-- Outcome of the full /run request pipeline: either a framework-level
default error page, or the handler response, plus the spawned commands. -/
structure PipelineOutcome where
  framework_error : Option Nat
  response : Option Resp
  spawned : List (List String)

/-- Modelled from the spec: the /run pipeline around run_script. Flask
request.json, which is not part of this repository, raises its default
BadRequest error (HTTP 400) when the POST body is absent or not
well-formed JSON; the handler body then never runs, so no subprocess is
spawned. A successfully parsed JSON object is passed to run_script. -/
def handle_run (os : List String → ExecResult)
    (parsed : Option (List (String × JVal))) : PipelineOutcome :=
  match parsed with
  | none => { framework_error := some 400, response := none, spawned := [] }
  | some b =>
    { framework_error := none
      response := some (run_script os b).response
      spawned := (run_script os b).spawned }

/-- A tiny concrete file system holding only static/index.html. -/
def fsDemo : String → Option (List Nat) :=
  fun p => if p = "static/index.html" then some [60, 104, 49, 62] else none

/-- Membership in the one-entry allow-list holds exactly for the str value
equal to the single entry. -/
theorem pyInList_erlaubte_iff (v : JVal) :
    pyInList v erlaubte_skripte = true ↔ v = JVal.str "dein_script.py" := by
  cases v <;> simp [pyInList, pyEqStr, erlaubte_skripte]

/-- Unfolding of run_script on a rejected script value. -/
theorem run_script_reject (os : List String → ExecResult)
    (body : List (String × JVal))
    (h : pyInList (getScript body) erlaubte_skripte = false) :
    run_script os body =
      { response := { status := 403, body := notAllowedBody }, spawned := [] } := by
  unfold run_script
  simp [h]

/-- Unfolding of run_script on an accepted script value. -/
theorem run_script_accept (os : List String → ExecResult)
    (body : List (String × JVal)) (s : String)
    (hs : getScript body = JVal.str s)
    (h : pyInList (getScript body) erlaubte_skripte = true) :
    run_script os body =
      (if (os ["python3", s]).exitCode = 0 then
        { response := { status := 200
                        body := JVal.obj
                          [("output", JVal.str (os ["python3", s]).stdout)] }
          spawned := [["python3", s]] }
      else
        { response := { status := 400
                        body := JVal.obj
                          [("error", JVal.str (os ["python3", s]).stderr)] }
          spawned := [["python3", s]] }) := by
  unfold run_script
  rw [hs] at h ⊢
  simp [h]

/-- C1: for every POST to /run whose JSON body has a script value that is
not a member of the allow-list (including omitted, null, empty string or
non-string values), the handler returns HTTP 403 with a JSON error object
and spawns no subprocess. -/
theorem c1_reject_returns_403_no_spawn (os : List String → ExecResult)
    (body : List (String × JVal))
    (h : pyInList (getScript body) erlaubte_skripte = false) :
    (run_script os body).response.status = 403 ∧
    (∃ msg, (run_script os body).response.body =
      JVal.obj [("error", JVal.str msg)]) ∧
    (run_script os body).spawned = [] := by
  rw [run_script_reject os body h]
  exact ⟨rfl, ⟨"Script nicht erlaubt", rfl⟩, rfl⟩

/-- C1 witness: a disallowed script name is rejected with 403, a JSON
error object and no spawn. -/
theorem c1_witness :
    (run_script osDefault [("script", JVal.str "other.py")]).response.status = 403 ∧
    (∃ msg, (run_script osDefault [("script", JVal.str "other.py")]).response.body =
      JVal.obj [("error", JVal.str msg)]) ∧
    (run_script osDefault [("script", JVal.str "other.py")]).spawned = [] :=
  c1_reject_returns_403_no_spawn osDefault [("script", JVal.str "other.py")] rfl

/-- C2: for an allowed script whose subprocess exits 0, /run responds 200
with output exactly the captured stdout, and the response does not depend
on the captured stderr. -/
theorem c2_success_returns_stdout_only
    (os os2 : List String → ExecResult) (body : List (String × JVal)) (s : String)
    (hs : getScript body = JVal.str s)
    (ha : pyInList (getScript body) erlaubte_skripte = true)
    (h0 : (os ["python3", s]).exitCode = 0) :
    (run_script os body).response =
      { status := 200
        body := JVal.obj [("output", JVal.str (os ["python3", s]).stdout)] } ∧
    ((os2 ["python3", s]).exitCode = 0 →
      (os2 ["python3", s]).stdout = (os ["python3", s]).stdout →
      run_script os2 body = run_script os body) := by
  constructor
  · rw [run_script_accept os body s hs ha]
    simp [h0]
  · intro h2 h3
    rw [run_script_accept os2 body s hs ha, run_script_accept os body s hs ha]
    simp [h0, h2, h3]

/-- C2 witness: with the allow-listed name and a process printing hello on
stdout and junk on stderr, the response is 200 with output hello, and
changing only stderr changes nothing. -/
theorem c2_witness :
    (run_script osHello [("script", JVal.str "dein_script.py")]).response =
      { status := 200, body := JVal.obj [("output", JVal.str "hello")] } ∧
    run_script osHello2 [("script", JVal.str "dein_script.py")] =
      run_script osHello [("script", JVal.str "dein_script.py")] := by
  have h := c2_success_returns_stdout_only osHello osHello2
    [("script", JVal.str "dein_script.py")] "dein_script.py" rfl rfl rfl
  exact ⟨h.1, h.2 rfl rfl⟩

/-- C3: for an allowed script whose subprocess exits with a non-zero
status, /run responds 400 with error exactly the captured stderr. -/
theorem c3_failure_returns_stderr
    (os : List String → ExecResult) (body : List (String × JVal)) (s : String)
    (hs : getScript body = JVal.str s)
    (ha : pyInList (getScript body) erlaubte_skripte = true)
    (h0 : (os ["python3", s]).exitCode ≠ 0) :
    (run_script os body).response =
      { status := 400
        body := JVal.obj [("error", JVal.str (os ["python3", s]).stderr)] } := by
  rw [run_script_accept os body s hs ha]
  simp [h0]

/-- C3 witness: with the allow-listed name and a failing process printing
boom on stderr, the response is 400 with error boom. -/
theorem c3_witness :
    (run_script osBoom [("script", JVal.str "dein_script.py")]).response =
      { status := 400, body := JVal.obj [("error", JVal.str "boom")] } :=
  c3_failure_returns_stderr osBoom [("script", JVal.str "dein_script.py")]
    "dein_script.py" rfl rfl (by decide)

/-- C4 counterexample: the handler rejects other.py with 403, but the
error body carries the German message Script nicht erlaubt, not the
message Script not allowed stated by the claim. -/
theorem c4_counterexample :
    (run_script osDefault [("script", JVal.str "other.py")]).response.status = 403 ∧
    (run_script osDefault [("script", JVal.str "other.py")]).response.body ≠
      JVal.obj [("error", JVal.str "Script not allowed")] := by
  refine ⟨rfl, fun h => ?_⟩
  exact absurd (congrArg errMsg h) (by decide)

/-- C4 amended: whenever /run rejects a request, the JSON error body is
the fixed message with the German text Script nicht erlaubt, the same for
every rejected input. -/
theorem c4_fixed_rejection_message (os : List String → ExecResult)
    (body : List (String × JVal))
    (h : pyInList (getScript body) erlaubte_skripte = false) :
    (run_script os body).response =
      { status := 403
        body := JVal.obj [("error", JVal.str "Script nicht erlaubt")] } := by
  rw [run_script_reject os body h]
  rfl

/-- C4 witness: an uppercase variant of the allow-listed name is rejected
with the fixed German message. -/
theorem c4_witness :
    (run_script osDefault [("script", JVal.str "DEIN_SCRIPT.PY")]).response =
      { status := 403
        body := JVal.obj [("error", JVal.str "Script nicht erlaubt")] } :=
  c4_fixed_rejection_message osDefault [("script", JVal.str "DEIN_SCRIPT.PY")] rfl

/-- C5: the allow-list is the fixed non-empty single-entry list, and a
script value passes validation (the handler does not answer 403) exactly
when it is literally the str equal to that one entry, with case-sensitive
equality and no normalization. -/
theorem c5_exact_single_entry_membership :
    erlaubte_skripte = ["dein_script.py"] ∧
    erlaubte_skripte ≠ [] ∧
    (∀ v : JVal, pyInList v erlaubte_skripte = true ↔
      v = JVal.str "dein_script.py") ∧
    (∀ (os : List String → ExecResult) (body : List (String × JVal)),
      (run_script os body).response.status ≠ 403 ↔
        getScript body = JVal.str "dein_script.py") := by
  refine ⟨rfl, by simp [erlaubte_skripte], pyInList_erlaubte_iff, ?_⟩
  intro os body
  by_cases hp : pyInList (getScript body) erlaubte_skripte = true
  · have hv := (pyInList_erlaubte_iff _).mp hp
    rw [run_script_accept os body "dein_script.py" hv hp]
    by_cases h0 : (os ["python3", "dein_script.py"]).exitCode = 0 <;>
      simp [h0, hv]
  · have hf : pyInList (getScript body) erlaubte_skripte = false :=
      Bool.not_eq_true _ ▸ Bool.of_not_eq_true hp
    rw [run_script_reject os body hf]
    simp only [ne_eq, not_true_eq_false, false_iff]
    intro hv
    exact hp ((pyInList_erlaubte_iff _).mpr hv)

/-- C5 witness: the exact allow-listed name is a member, and a body whose
script value is null is answered with 403. -/
theorem c5_witness :
    pyInList (JVal.str "dein_script.py") erlaubte_skripte = true ∧
    (run_script osDefault [("script", JVal.null)]).response.status = 403 := by
  refine ⟨(c5_exact_single_entry_membership.2.2.1 _).mpr rfl, ?_⟩
  by_contra h
  have hv := (c5_exact_single_entry_membership.2.2.2 osDefault
    [("script", JVal.null)]).mp h
  simp [getScript] at hv

/-- C6: the validation decision of /run depends only on the script value
and the static allow-list: for any two operating systems and any two
bodies with the same script value, the handlers agree on acceptance
versus rejection, and on rejection they produce identical traces with an
empty spawn list. -/
theorem c6_validation_deterministic_pure
    (os1 os2 : List String → ExecResult) (b1 b2 : List (String × JVal))
    (h : getScript b1 = getScript b2) :
    ((run_script os1 b1).response.status = 403 ↔
      (run_script os2 b2).response.status = 403) ∧
    ((run_script os1 b1).response.status = 403 →
      run_script os1 b1 = run_script os2 b2 ∧
      (run_script os1 b1).spawned = []) := by
  by_cases hp : pyInList (getScript b1) erlaubte_skripte = true
  · have hv := (pyInList_erlaubte_iff _).mp hp
    have hp2 : pyInList (getScript b2) erlaubte_skripte = true := h ▸ hp
    have hv2 : getScript b2 = JVal.str "dein_script.py" := h ▸ hv
    rw [run_script_accept os1 b1 "dein_script.py" hv hp,
        run_script_accept os2 b2 "dein_script.py" hv2 hp2]
    constructor
    · by_cases h1 : (os1 ["python3", "dein_script.py"]).exitCode = 0 <;>
        by_cases h2 : (os2 ["python3", "dein_script.py"]).exitCode = 0 <;>
        simp [h1, h2]
    · by_cases h1 : (os1 ["python3", "dein_script.py"]).exitCode = 0 <;>
        simp [h1]
  · have hf : pyInList (getScript b1) erlaubte_skripte = false :=
      Bool.of_not_eq_true hp
    have hf2 : pyInList (getScript b2) erlaubte_skripte = false := h ▸ hf
    rw [run_script_reject os1 b1 hf, run_script_reject os2 b2 hf2]
    exact ⟨Iff.rfl, fun _ => ⟨rfl, rfl⟩⟩

/-- C6 witness: two rejected requests with the same script value but
different operating systems and extra body fields produce identical
traces with status 403. -/
theorem c6_witness :
    run_script osHello [("script", JVal.str "x.py")] =
      run_script osBoom [("a", JVal.num 3), ("script", JVal.str "x.py")] ∧
    (run_script osHello [("script", JVal.str "x.py")]).response.status = 403 := by
  have h := c6_validation_deterministic_pure osHello osBoom
    [("script", JVal.str "x.py")] [("a", JVal.num 3), ("script", JVal.str "x.py")] rfl
  exact ⟨(h.2 rfl).1, rfl⟩

/-- C7: a request that passes validation spawns exactly one process,
invoked as python3 followed by the script name; a request that fails
validation spawns none. -/
theorem c7_spawns_exactly_one (os : List String → ExecResult)
    (body : List (String × JVal)) :
    (pyInList (getScript body) erlaubte_skripte = true →
      ∃ s, getScript body = JVal.str s ∧
        (run_script os body).spawned = [["python3", s]]) ∧
    (pyInList (getScript body) erlaubte_skripte = false →
      (run_script os body).spawned = []) := by
  constructor
  · intro hp
    have hv := (pyInList_erlaubte_iff _).mp hp
    refine ⟨"dein_script.py", hv, ?_⟩
    rw [run_script_accept os body "dein_script.py" hv hp]
    by_cases h0 : (os ["python3", "dein_script.py"]).exitCode = 0 <;> simp [h0]
  · intro hf
    rw [run_script_reject os body hf]

/-- C7 witness: the allow-listed name spawns exactly the one command
python3 dein_script.py, and the empty body spawns nothing. -/
theorem c7_witness :
    (run_script osDefault [("script", JVal.str "dein_script.py")]).spawned =
      [["python3", "dein_script.py"]] ∧
    (run_script osDefault ([] : List (String × JVal))).spawned = [] := by
  have h1 := (c7_spawns_exactly_one osDefault
    [("script", JVal.str "dein_script.py")]).1 rfl
  have h2 := (c7_spawns_exactly_one osDefault ([] : List (String × JVal))).2 rfl
  obtain ⟨s, hs, hsp⟩ := h1
  cases hs
  exact ⟨hsp, h2⟩

/-- C8: GET / returns 200 with exactly the byte content of
static/index.html when that file exists, and fails with 404 when it is
absent. -/
theorem c8_index_serves_exact_bytes (fs : String → Option (List Nat))
    (bs : List Nat) :
    (fs "static/index.html" = some bs →
      index fs = { status := 200, content := bs }) ∧
    (fs "static/index.html" = none → (index fs).status = 404) := by
  constructor <;> intro h <;> simp [index, send_from_directory, h]

/-- C8 witness: on a file system holding only static/index.html, the
index handler returns 200 with those bytes; on the empty file system it
returns 404. -/
theorem c8_witness :
    index fsDemo = { status := 200, content := [60, 104, 49, 62] } ∧
    (index (fun _ => none)).status = 404 := by
  refine ⟨(c8_index_serves_exact_bytes fsDemo [60, 104, 49, 62]).1 (by decide), ?_⟩
  exact (c8_index_serves_exact_bytes (fun _ => none) []).2 rfl

/-- C9: when the POST body of /run is absent or not well-formed JSON, the
pipeline surfaces the framework default error, produces no handler
response, and spawns no subprocess. -/
theorem c9_malformed_body_default_error (os : List String → ExecResult) :
    (handle_run os none).framework_error = some 400 ∧
    (handle_run os none).response = none ∧
    (handle_run os none).spawned = [] :=
  ⟨rfl, rfl, rfl⟩

/-- C10: on subprocess failure the 400 response body is a JSON object
whose only key is error, carrying the stderr text, and the response does
not depend on the captured stdout. -/
theorem c10_failure_discards_stdout
    (os os2 : List String → ExecResult) (body : List (String × JVal)) (s : String)
    (hs : getScript body = JVal.str s)
    (ha : pyInList (getScript body) erlaubte_skripte = true)
    (h0 : (os ["python3", s]).exitCode ≠ 0) :
    (run_script os body).response.status = 400 ∧
    (run_script os body).response.body =
      JVal.obj [("error", JVal.str (os ["python3", s]).stderr)] ∧
    objKeys (run_script os body).response.body = ["error"] ∧
    ((os2 ["python3", s]).exitCode ≠ 0 →
      (os2 ["python3", s]).stderr = (os ["python3", s]).stderr →
      run_script os2 body = run_script os body) := by
  rw [run_script_accept os body s hs ha]
  refine ⟨by simp [h0], by simp [h0], by simp [h0, objKeys], ?_⟩
  intro h2 h3
  rw [run_script_accept os2 body s hs ha]
  simp [h0, h2, h3]

/-- C10 witness: a failing process with noise on stdout and boom on
stderr yields a 400 body with the single key error carrying boom, and
changing only stdout changes nothing. -/
theorem c10_witness :
    (run_script osBoom [("script", JVal.str "dein_script.py")]).response.status = 400 ∧
    objKeys (run_script osBoom [("script", JVal.str "dein_script.py")]).response.body =
      ["error"] ∧
    run_script osBoom2 [("script", JVal.str "dein_script.py")] =
      run_script osBoom [("script", JVal.str "dein_script.py")] := by
  have h := c10_failure_discards_stdout osBoom osBoom2
    [("script", JVal.str "dein_script.py")] "dein_script.py" rfl rfl (by decide)
  exact ⟨h.1, h.2.2.1, h.2.2.2 (by decide) rfl⟩

end Website
